import Mathlib

/-!
Shallow embedding of `src/exercicios/para-sala/users-api/src/users/user.service.ts`
(the `UserService` class): validator predicates, the validation gate, and the
registry operations `createUser`, `updateUser`, `deleteUser`, modelled as pure
state-passing functions over the list of users.
-/

namespace UsersApi

/-- The role union type `'customer' | 'manager' | 'admin'`. -/
inductive UserType where
  | customer
  | manager
  | admin
deriving DecidableEq, Repr

/-- Modelled from the spec: the `User` entity (`user.entity.ts` is not under
`src/`, only its constructor call and field accesses in `user.service.ts` are).
Fields follow the constructor call in `createUser` (name, email, password, cpf,
userType, code, number, superPassword) plus the primary-key `id`, which per the
spec is "a separately assigned id the surrounding DTO layer supplies", used by
`getUserById` / `updateUser` / `deleteUser`. -/
structure User where
  id : String
  name : String
  email : String
  password : String
  cpf : String
  userType : UserType
  code : String
  number : String
  superPassword : Option String
deriving DecidableEq, Repr

/-- The distinguishing error messages thrown by `UserService`
(`throw new Error('...')`), one constructor per message. -/
inductive UserError where
  | invalidEmail
  | invalidPassword
  | invalidSuperPassword
  | emailInUse
  | cpfInUse
  | invalidCpf
  | userNotFound
deriving DecidableEq, Repr

/-- JavaScript `\s` character class, restricted to the whitespace characters
relevant here (the regexes only ever exclude whitespace). -/
def isSpaceChar (c : Char) : Bool :=
  c == ' ' || c == '\t' || c == '\n' || c == '\r' ||
  c == '\x0b' || c == '\x0c' || c == ' '

/-- A character matching `[^\s@]`. -/
def emailChar (c : Char) : Bool :=
  !(isSpaceChar c || c == '@')

/-- Split a character list at its first `@`: the part before and the part
after, or `none` when there is no `@`. -/
def emailParts (l : List Char) : Option (List Char × List Char) :=
  match l with
  | [] => none
  | c :: rest =>
    if c = '@' then some ([], rest)
    else
      match emailParts rest with
      | none => none
      | some (a, b) => some (c :: a, b)

/-- `isValidEmail`: the regex `/^[^\s@]+@[^\s@]+\.[^\s@]+$/`.
The string must consist of a nonempty `[^\s@]+` local part, one `@` (the part
after the first `@` may contain no further `@`, hence exactly one), and a
domain part that is `[^\s@]+ '.' [^\s@]+`, i.e. whose characters all match
`[^\s@]` and which contains a `.` that is neither its first nor its last
character. -/
def isValidEmail (email : String) : Bool :=
  match emailParts email.data with
  | none => false
  | some (a, d) =>
    !a.isEmpty && a.all emailChar && d.all emailChar &&
    (d.drop 1).dropLast.contains '.'

/-- A character of the password symbol set `[@$!%*?&]`. -/
def passwordSymbol (c : Char) : Bool :=
  c == '@' || c == '$' || c == '!' || c == '%' || c == '*' || c == '?' || c == '&'

/-- A character of the password body class `[A-Za-z\d@$!%*?&]`. -/
def passwordChar (c : Char) : Bool :=
  ('a' ≤ c && c ≤ 'z') || ('A' ≤ c && c ≤ 'Z') || ('0' ≤ c && c ≤ '9') ||
  passwordSymbol c

/-- `isValidPassword`: the regex
`/^(?=.*[a-z])(?=.*[A-Z])(?=.*\d)(?=.*[@$!%*?&])[A-Za-z\d@$!%*?&]{8,}$/`:
four lookaheads requiring a lowercase letter, an uppercase letter, a digit and
a symbol somewhere, and a body of at least 8 characters drawn from the class. -/
def isValidPassword (password : String) : Bool :=
  password.data.any (fun c => 'a' ≤ c && c ≤ 'z') &&
  password.data.any (fun c => 'A' ≤ c && c ≤ 'Z') &&
  password.data.any (fun c => '0' ≤ c && c ≤ '9') &&
  password.data.any passwordSymbol &&
  password.data.all passwordChar &&
  decide (8 ≤ password.data.length)

/-- A character matching `\d`. -/
def isDigitChar (c : Char) : Bool :=
  '0' ≤ c && c ≤ '9'

/-- `isValidCpfFormat`: the regex `/^\d{3}\.\d{3}\.\d{3}\-\d{2}$/`. -/
def isValidCpfFormat (cpf : String) : Bool :=
  match cpf.data with
  | [a, b, c, p1, d, e, f, p2, g, h, i, p3, j, k] =>
    isDigitChar a && isDigitChar b && isDigitChar c && p1 == '.' &&
    isDigitChar d && isDigitChar e && isDigitChar f && p2 == '.' &&
    isDigitChar g && isDigitChar h && isDigitChar i && p3 == '-' &&
    isDigitChar j && isDigitChar k
  | _ => false

/-- The blacklist `invalidCpfs` of the ten all-identical-digit strings. -/
def invalidCpfs : List String :=
  ["00000000000", "11111111111", "22222222222", "33333333333", "44444444444",
   "55555555555", "66666666666", "77777777777", "88888888888", "99999999999"]

/-- `cpf.replace(/[^\d]+/g, '')`: strip every non-digit character. -/
def cpfStrip (cpf : String) : List Char :=
  cpf.data.filter isDigitChar

/-- Numeric value of a digit character (`parseInt` on a single digit). -/
def charToDigit (c : Char) : Nat :=
  c.toNat - '0'.toNat

/-- `calculateCpfDigit(base, length)`: for `i = 1 .. length`, weight the digit
at index `i - 1` by `length + 2 - i` (re-indexed: digit at index `i` weighted
by `length + 1 - i`), sum, take `(sum * 10) % 11`, and coerce a remainder of
10 or 11 to 0. -/
def calculateCpfDigit (base : List Nat) (length : Nat) : Nat :=
  let sum := (List.range length).foldl
    (fun acc i => acc + base.getD i 0 * (length + 1 - i)) 0
  let remainder := sum * 10 % 11
  if remainder == 10 || remainder == 11 then 0 else remainder

/-- `isValidCpfDigits`: strip non-digits, require exactly 11 digits, reject the
blacklist, then require both computed check digits to match digits 10 and 11
(0-indexed 9 and 10). -/
def isValidCpfDigits (cpf : String) : Bool :=
  let ds := cpfStrip cpf
  if ds.length ≠ 11 then false
  else if invalidCpfs.contains (String.mk ds) then false
  else
    let digits := ds.map charToDigit
    calculateCpfDigit digits 9 == digits.getD 9 0 &&
    calculateCpfDigit digits 10 == digits.getD 10 0

/-- `isEmailInUse`: some live record has this email. -/
def isEmailInUse (users : List User) (email : String) : Bool :=
  users.any (fun u => u.email == email)

/-- `isCpfInUse`: some live record has this cpf. -/
def isCpfInUse (users : List User) (cpf : String) : Bool :=
  users.any (fun u => u.cpf == cpf)

/-- JavaScript truthiness of the optional `superPassword` argument:
`undefined` and the empty string are falsy. -/
def truthy (superPassword : Option String) : Bool :=
  match superPassword with
  | none => false
  | some s => s ≠ ""

/-- `validateUserData`: the shared gate. Returns the first error thrown, or
`none` when every check passes. The checks are in source order: email shape,
password, super password (only when truthy), email in use, cpf in use, cpf
format-and-checksum. -/
def validateUserData (users : List User) (email password : String)
    (superPassword : Option String) (cpf : String) : Option UserError :=
  if !isValidEmail email then some .invalidEmail
  else if !isValidPassword password then some .invalidPassword
  else if truthy superPassword && !isValidPassword (superPassword.getD "") then
    some .invalidSuperPassword
  else if isEmailInUse users email then some .emailInUse
  else if isCpfInUse users cpf then some .cpfInUse
  else if !isValidCpfFormat cpf || !isValidCpfDigits cpf then some .invalidCpf
  else none

/-- `createUser`. `now` stands for `Date.now()` and `id` for the primary key
the surrounding DTO layer assigns (spec, Design Notes). Returns the thrown
error or the created record, together with the record set after the call
(unchanged when an error is thrown). -/
def createUser (users : List User) (now : Nat) (id name email password cpf : String)
    (userType : UserType) (superPassword : Option String) :
    Except UserError User × List User :=
  match validateUserData users email password superPassword cpf with
  | some e => (.error e, users)
  | none =>
    let userCode := toString now ++ toString users.length
    let user : User :=
      { id := id, name := name, email := email, password := password, cpf := cpf,
        userType := userType, code := userCode,
        number := toString (users.length + 1), superPassword := superPassword }
    (.ok user, users ++ [user])

/-- The in-place field assignments `updateUser` performs on the found record:
name/email/password/cpf/userType unconditionally, `superPassword` only when
the supplied value is truthy. -/
def applyUpdate (u : User) (name email password cpf : String)
    (userType : UserType) (superPassword : Option String) : User :=
  { u with
    name := name
    email := email
    password := password
    cpf := cpf
    userType := userType
    superPassword := if truthy superPassword then superPassword else u.superPassword }

/-- `this.users.find(u => u.id === id)` followed by in-place mutation of the
found record: replace the first record whose id matches by `f` applied to it,
returning the mutated record and the new list, or `none` when no id matches. -/
def updateFirst (users : List User) (id : String) (f : User → User) :
    Option (User × List User) :=
  match users with
  | [] => none
  | u :: rest =>
    if u.id == id then
      some (f u, f u :: rest)
    else
      match updateFirst rest id f with
      | none => none
      | some (v, rest') => some (v, u :: rest')

/-- `updateUser`: run the gate (against the full current state), then look the
record up by id (`UserNotFound` if absent), then overwrite its fields. -/
def updateUser (users : List User) (id name email password cpf : String)
    (userType : UserType) (superPassword : Option String) :
    Except UserError User × List User :=
  match validateUserData users email password superPassword cpf with
  | some e => (.error e, users)
  | none =>
    match updateFirst users id
        (fun u => applyUpdate u name email password cpf userType superPassword) with
    | none => (.error .userNotFound, users)
    | some (u, users') => (.ok u, users')

/-- `deleteUser`: `this.users = this.users.filter(u => u.id !== id)`. -/
def deleteUser (users : List User) (id : String) : List User :=
  users.filter (fun u => u.id != id)

/-- `getUserById`. -/
def getUserById (users : List User) (id : String) : Except UserError User :=
  match users.find? (fun u => u.id == id) with
  | none => .error .userNotFound
  | some u => .ok u

/-- One call to a mutating operation of the service, with its arguments. -/
inductive Op where
  | create (now : Nat) (id name email password cpf : String)
      (userType : UserType) (superPassword : Option String)
  | update (id name email password cpf : String)
      (userType : UserType) (superPassword : Option String)
  | delete (id : String)

/-- The record set after one operation. -/
def applyOp (users : List User) : Op → List User
  | .create now id name email password cpf t sp =>
    (createUser users now id name email password cpf t sp).2
  | .update id name email password cpf t sp =>
    (updateUser users id name email password cpf t sp).2
  | .delete id => deleteUser users id

/-- The record set reached from the empty registry by a call sequence. -/
def runOps (ops : List Op) : List User :=
  ops.foldl applyOp []

/-- The supplied secondary password, when truthy, passes the complexity check
(the condition under which the gate does not throw `InvalidSecondaryPassword`). -/
def superPasswordOk (sp : Option String) : Prop :=
  truthy sp = true → isValidPassword (sp.getD "") = true

/-- The password complexity policy as the spec words it: length at least 8, at
least one lowercase letter, one uppercase letter, one digit, one symbol from
the set `@$!%*?&`, and no character outside `[A-Za-z0-9@$!%*?&]`. -/
def PasswordPolicy (p : String) : Prop :=
  8 ≤ p.length ∧
  (∃ c ∈ p.data, 'a' ≤ c ∧ c ≤ 'z') ∧
  (∃ c ∈ p.data, 'A' ≤ c ∧ c ≤ 'Z') ∧
  (∃ c ∈ p.data, '0' ≤ c ∧ c ≤ '9') ∧
  (∃ c ∈ p.data, c = '@' ∨ c = '$' ∨ c = '!' ∨ c = '%' ∨ c = '*' ∨ c = '?' ∨ c = '&') ∧
  (∀ c ∈ p.data, ('A' ≤ c ∧ c ≤ 'Z') ∨ ('a' ≤ c ∧ c ≤ 'z') ∨ ('0' ≤ c ∧ c ≤ '9') ∨
    c = '@' ∨ c = '$' ∨ c = '!' ∨ c = '%' ∨ c = '*' ∨ c = '?' ∨ c = '&')

/-- Uniqueness of emails across a record set: any two records at distinct
positions have different emails. -/
def emailsDistinct (users : List User) : Prop :=
  users.Pairwise (fun a b => a.email ≠ b.email)

/-- Uniqueness of cpfs across a record set. -/
def cpfsDistinct (users : List User) : Prop :=
  users.Pairwise (fun a b => a.cpf ≠ b.cpf)

/-- The two uniqueness invariants together. -/
def registryInv (users : List User) : Prop :=
  emailsDistinct users ∧ cpfsDistinct users

/-- A concrete record, used to instantiate theorems that have hypotheses. -/
def sampleUser : User :=
  { id := "A", name := "Ana", email := "a@a.a", password := "aA1@aA1@",
    cpf := "111.444.777-35", userType := .customer, code := "00", number := "1",
    superPassword := none }

/-- A concrete record whose cpf is structurally malformed, used to instantiate
the short-circuit theorem at a state where the in-use tax-id is invalid. -/
def badCpfUser : User :=
  { id := "B", name := "Bea", email := "b@b.b", password := "aA1@aA1@",
    cpf := "badcpf", userType := .manager, code := "01", number := "2",
    superPassword := none }

/-- The record produced by updating `sampleUser` with fresh valid fields,
used to instantiate the update frame theorem. -/
def updatedSample : User :=
  { id := "A", name := "Zoe", email := "z@z.z", password := "bB2$bB2$",
    cpf := "123.456.789-09", userType := .admin, code := "00", number := "1",
    superPassword := none }

/-- The operation sequence create A, create B, delete A, create C, with valid
distinct inputs (C reuses A's cpf, which is free again after the delete). -/
def dupNumberOps : List Op :=
  [Op.create 0 "A" "Ana" "a@a.a" "aA1@aA1@" "111.444.777-35" UserType.customer none,
   Op.create 1 "B" "Bea" "b@b.b" "aA1@aA1@" "123.456.789-09" UserType.customer none,
   Op.delete "A",
   Op.create 2 "C" "Caio" "c@c.c" "aA1@aA1@" "111.444.777-35" UserType.customer none]

end UsersApi

deriving instance DecidableEq for Except

namespace UsersApi

/-! ### Helper lemmas -/

theorem validateUserData_none_elim {users : List User} {email password : String}
    {sp : Option String} {cpf : String}
    (h : validateUserData users email password sp cpf = none) :
    isValidEmail email = true ∧ isValidPassword password = true ∧
    (truthy sp && !isValidPassword (sp.getD "")) = false ∧
    isEmailInUse users email = false ∧ isCpfInUse users cpf = false ∧
    isValidCpfFormat cpf = true ∧ isValidCpfDigits cpf = true := by
  unfold validateUserData at h
  repeat' split at h
  all_goals simp_all

theorem validateUserData_none_intro {users : List User} {email password : String}
    {sp : Option String} {cpf : String}
    (h1 : isValidEmail email = true) (h2 : isValidPassword password = true)
    (h3 : superPasswordOk sp)
    (h4 : isEmailInUse users email = false) (h5 : isCpfInUse users cpf = false)
    (h6 : isValidCpfFormat cpf = true) (h7 : isValidCpfDigits cpf = true) :
    validateUserData users email password sp cpf = none := by
  have hsp : (truthy sp && !isValidPassword (sp.getD "")) = false := by
    cases htr : truthy sp with
    | false => simp
    | true => simp [h3 htr]
  unfold validateUserData
  simp [h1, h2, hsp, h4, h5, h6, h7]

theorem email_not_inUse {users : List User} {email : String}
    (h : isEmailInUse users email = false) : ∀ u ∈ users, u.email ≠ email := by
  intro u hu
  simp only [isEmailInUse, List.any_eq_false] at h
  simpa using h u hu

theorem cpf_not_inUse {users : List User} {cpf : String}
    (h : isCpfInUse users cpf = false) : ∀ u ∈ users, u.cpf ≠ cpf := by
  intro u hu
  simp only [isCpfInUse, List.any_eq_false] at h
  simpa using h u hu

theorem email_inUse_of_mem {users : List User} {u : User} (hu : u ∈ users) :
    isEmailInUse users u.email = true := by
  simp only [isEmailInUse, List.any_eq_true]
  exact ⟨u, hu, by simp⟩

theorem cpf_inUse_of_mem {users : List User} {u : User} (hu : u ∈ users) :
    isCpfInUse users u.cpf = true := by
  simp only [isCpfInUse, List.any_eq_true]
  exact ⟨u, hu, by simp⟩

theorem updateFirst_spec {f : User → User} :
    ∀ {users : List User} {id : String} {v : User} {users' : List User},
    updateFirst users id f = some (v, users') →
    ∃ l₁ u l₂, users = l₁ ++ u :: l₂ ∧ (∀ x ∈ l₁, (x.id == id) = false) ∧
      (u.id == id) = true ∧ v = f u ∧ users' = l₁ ++ f u :: l₂ := by
  intro users
  induction users with
  | nil => intro id v users' h; simp [updateFirst] at h
  | cons u rest ih =>
    intro id v users' h
    unfold updateFirst at h
    by_cases hid : (u.id == id) = true
    · rw [if_pos hid] at h
      obtain ⟨hv, hl⟩ : v = f u ∧ users' = f u :: rest := by
        constructor <;> [exact (Prod.mk.injEq .. ▸ Option.some.inj h).1.symm;
          exact (Prod.mk.injEq .. ▸ Option.some.inj h).2.symm]
      exact ⟨[], u, rest, by simp, by simp, hid, hv, by simp [hl]⟩
    · rw [if_neg hid] at h
      cases hrec : updateFirst rest id f with
      | none => rw [hrec] at h; simp at h
      | some p =>
        obtain ⟨w, rest'⟩ := p
        rw [hrec] at h
        obtain ⟨hv, hl⟩ : v = w ∧ users' = u :: rest' := by
          have := Option.some.inj h
          constructor <;> [exact (congrArg Prod.fst this).symm;
            exact (congrArg Prod.snd this).symm]
        obtain ⟨l₁, w', l₂, hsplit, hpre, hw'id, hww', hrest'⟩ := ih hrec
        refine ⟨u :: l₁, w', l₂, by simp [hsplit], ?_, hw'id, hww' ▸ hv, ?_⟩
        · intro x hx
          rcases List.mem_cons.mp hx with hxu | hxl
          · subst hxu; simpa using hid
          · exact hpre x hxl
        · simp [hl, hrest']

theorem updateFirst_none {f : User → User} :
    ∀ {users : List User} {id : String}, (∀ u ∈ users, (u.id == id) = false) →
    updateFirst users id f = none := by
  intro users
  induction users with
  | nil => intro id _; rfl
  | cons u rest ih =>
    intro id h
    unfold updateFirst
    rw [if_neg (by simp [h u (List.mem_cons_self u rest)]), ih fun x hx =>
      h x (List.mem_cons_of_mem u hx)]

theorem find?_eq_of_split {p : User → Bool} {u : User} {l₂ : List User} :
    ∀ {l₁ : List User}, (∀ x ∈ l₁, p x = false) → p u = true →
    (l₁ ++ u :: l₂).find? p = some u := by
  intro l₁
  induction l₁ with
  | nil => intro _ h2; simpa using List.find?_cons_of_pos l₂ h2
  | cons a l ih =>
    intro h1 h2
    rw [List.cons_append, List.find?_cons_of_neg _ (by simp [h1 a (by simp)]),
      ih (fun x hx => h1 x (List.mem_cons_of_mem a hx)) h2]

theorem pairwise_field_replace (g : User → String) {e : String}
    {l₁ l₂ : List User} {u w : User}
    (h : (l₁ ++ u :: l₂).Pairwise (fun a b => g a ≠ g b))
    (hall : ∀ x ∈ l₁ ++ u :: l₂, g x ≠ e) (hw : g w = e) :
    (l₁ ++ w :: l₂).Pairwise (fun a b => g a ≠ g b) := by
  rw [List.pairwise_append] at h ⊢
  obtain ⟨h1, h2, h3⟩ := h
  rw [List.pairwise_cons] at h2 ⊢
  refine ⟨h1, ⟨?_, h2.2⟩, ?_⟩
  · intro b hb
    have : g b ≠ e := hall b (by simp [hb])
    rw [hw]
    exact fun hbe => this hbe.symm
  · intro a ha b hb
    rcases List.mem_cons.mp hb with hbw | hbl
    · subst hbw
      rw [hw]
      exact hall a (by simp [ha])
    · exact h3 a ha b (List.mem_cons_of_mem u hbl)

theorem toDigitsCore_ne_nil (b : Nat) :
    ∀ (f n : Nat) (l : List Char), Nat.toDigitsCore b (f + 1) n l ≠ [] := by
  intro f
  induction f with
  | zero =>
    intro n l
    simp only [Nat.toDigitsCore]
    split <;> simp [Nat.toDigitsCore]
  | succ f ih =>
    intro n l
    simp only [Nat.toDigitsCore]
    split
    · simp
    · exact ih _ _

theorem nat_toString_ne_empty (n : Nat) : toString n ≠ "" := by
  show Nat.repr n ≠ ""
  unfold Nat.repr Nat.toDigits
  intro h
  exact toDigitsCore_ne_nil 10 n n [] (congrArg String.data h)

theorem string_append_ne_empty_left {a b : String} (h : a ≠ "") : a ++ b ≠ "" := by
  intro hab
  apply h
  have : a.data ++ b.data = [] := congrArg String.data hab
  have ha : a.data = [] := (List.append_eq_nil.mp this).1
  cases a
  simp_all

theorem registryInv_createUser {users : List User} (now : Nat)
    (id name email password cpf : String) (t : UserType) (sp : Option String)
    (h : registryInv users) :
    registryInv (createUser users now id name email password cpf t sp).2 := by
  unfold createUser
  cases hv : validateUserData users email password sp cpf with
  | some e => exact h
  | none =>
    obtain ⟨-, -, -, hmail, hcpf, -, -⟩ := validateUserData_none_elim hv
    constructor
    · rw [emailsDistinct, List.pairwise_append]
      refine ⟨h.1, List.pairwise_singleton _ _, ?_⟩
      intro a ha b hb
      rw [List.mem_singleton] at hb
      subst hb
      exact email_not_inUse hmail a ha
    · rw [cpfsDistinct, List.pairwise_append]
      refine ⟨h.2, List.pairwise_singleton _ _, ?_⟩
      intro a ha b hb
      rw [List.mem_singleton] at hb
      subst hb
      exact cpf_not_inUse hcpf a ha

theorem registryInv_updateUser {users : List User}
    (id name email password cpf : String) (t : UserType) (sp : Option String)
    (h : registryInv users) :
    registryInv (updateUser users id name email password cpf t sp).2 := by
  unfold updateUser
  cases hv : validateUserData users email password sp cpf with
  | some e => exact h
  | none =>
    cases hu : updateFirst users id
        (fun u => applyUpdate u name email password cpf t sp) with
    | none => exact h
    | some p =>
      obtain ⟨v, users'⟩ := p
      obtain ⟨l₁, u, l₂, hsplit, -, -, -, husers'⟩ := updateFirst_spec hu
      obtain ⟨-, -, -, hmail, hcpf, -, -⟩ := validateUserData_none_elim hv
      subst hsplit
      subst husers'
      constructor
      · exact pairwise_field_replace (fun w => w.email) h.1
          (email_not_inUse hmail) rfl
      · exact pairwise_field_replace (fun w => w.cpf) h.2
          (cpf_not_inUse hcpf) rfl

theorem registryInv_deleteUser {users : List User} (id : String)
    (h : registryInv users) : registryInv (deleteUser users id) :=
  ⟨List.Pairwise.sublist (List.filter_sublist users) h.1,
   List.Pairwise.sublist (List.filter_sublist users) h.2⟩

theorem registryInv_applyOp {users : List User} (op : Op)
    (h : registryInv users) : registryInv (applyOp users op) := by
  cases op with
  | create now id name email password cpf t sp =>
    exact registryInv_createUser now id name email password cpf t sp h
  | update id name email password cpf t sp =>
    exact registryInv_updateUser id name email password cpf t sp h
  | delete id => exact registryInv_deleteUser id h

theorem registryInv_foldl : ∀ (ops : List Op) (users : List User),
    registryInv users → registryInv (ops.foldl applyOp users) := by
  intro ops
  induction ops with
  | nil => intro users h; exact h
  | cons op rest ih =>
    intro users h
    exact ih (applyOp users op) (registryInv_applyOp op h)

theorem superPasswordOk_none : superPasswordOk none :=
  fun h => absurd h (by decide)

theorem passwordSymbol_cases {c : Char} : passwordSymbol c = true ↔
    c = '@' ∨ c = '$' ∨ c = '!' ∨ c = '%' ∨ c = '*' ∨ c = '?' ∨ c = '&' := by
  unfold passwordSymbol
  simp only [Bool.or_eq_true, beq_iff_eq]
  tauto

theorem passwordChar_cases {c : Char} : passwordChar c = true ↔
    ('A' ≤ c ∧ c ≤ 'Z') ∨ ('a' ≤ c ∧ c ≤ 'z') ∨ ('0' ≤ c ∧ c ≤ '9') ∨
    c = '@' ∨ c = '$' ∨ c = '!' ∨ c = '%' ∨ c = '*' ∨ c = '?' ∨ c = '&' := by
  unfold passwordChar passwordSymbol
  simp only [Bool.or_eq_true, Bool.and_eq_true, decide_eq_true_eq, beq_iff_eq]
  tauto

/-! ### Claims -/

/-- C1, counterexample: the claim says the checksum check rejects
`123.456.789-09`, but both `isValidCpfFormat` and `isValidCpfDigits` accept
it (its two check digits satisfy the CPF algorithm), and `createUser` with it
as tax-id and all other fields valid and unique does not fail with
`InvalidTaxId` — it succeeds. -/
theorem c1_checksum_counterexample :
    isValidCpfFormat "123.456.789-09" = true ∧
    isValidCpfDigits "123.456.789-09" = true ∧
    (createUser [] 0 "A" "Ana" "a@a.a" "aA1@aA1@" "123.456.789-09"
      UserType.customer none).1 ≠ Except.error UserError.invalidCpf := by
  refine ⟨by decide, by decide, by decide⟩

/-- C1 (amended): both `123.456.789-09` and `111.444.777-35` pass the
structural and checksum checks, and `createUser` with either as tax-id (all
other fields valid and unique) succeeds rather than failing with
`InvalidTaxId`. -/
theorem c1_checksum_accepts :
    isValidCpfFormat "123.456.789-09" = true ∧
    isValidCpfDigits "123.456.789-09" = true ∧
    isValidCpfFormat "111.444.777-35" = true ∧
    isValidCpfDigits "111.444.777-35" = true ∧
    ((createUser [] 0 "A" "Ana" "a@a.a" "aA1@aA1@" "123.456.789-09"
      UserType.customer none).1).isOk = true ∧
    ((createUser [] 0 "A" "Ana" "a@a.a" "aA1@aA1@" "111.444.777-35"
      UserType.customer none).1).isOk = true := by
  refine ⟨by decide, by decide, by decide, by decide, by decide, by decide⟩

/-- C2, counterexample: with an empty registry (so the id `"missing"` belongs
to no live record) and an invalid email, `updateUser` fails with
`InvalidEmail`, not `UserNotFound` — the gate runs before the id lookup. -/
theorem c2_counterexample :
    (updateUser [] "missing" "Ana" "not-an-email" "aA1@aA1@" "111.444.777-35"
      UserType.customer none).1 = Except.error UserError.invalidEmail ∧
    (updateUser [] "missing" "Ana" "not-an-email" "aA1@aA1@" "111.444.777-35"
      UserType.customer none).1 ≠ Except.error UserError.userNotFound := by
  refine ⟨by decide, by decide⟩

/-- C2 (amended): for every registry state and every id not belonging to any
live record, `updateUser` fails with `UserNotFound` (leaving the record set
unchanged) provided the supplied fields pass the validation gate; when a
supplied field fails the gate, the gate's error is reported instead. -/
theorem c2_update_missing_id (users : List User) (id name email password cpf : String)
    (t : UserType) (sp : Option String)
    (hval : validateUserData users email password sp cpf = none)
    (hid : ∀ u ∈ users, u.id ≠ id) :
    updateUser users id name email password cpf t sp =
      (Except.error UserError.userNotFound, users) := by
  unfold updateUser
  rw [hval, updateFirst_none (fun u hu => by simp [hid u hu])]

/-- C2 witness. -/
theorem c2_update_missing_id_witness :
    updateUser [] "missing" "Ana" "a@a.a" "aA1@aA1@" "111.444.777-35"
      UserType.customer none = (Except.error UserError.userNotFound, []) :=
  c2_update_missing_id [] "missing" "Ana" "a@a.a" "aA1@aA1@" "111.444.777-35"
    UserType.customer none (by decide) (by simp)

/-- C3: for every state containing a live record `u`, updating `u` while
resubmitting `u`'s own current email (other fields valid) fails with
`EmailInUse`, and resubmitting `u`'s own current tax-id (with a fresh valid
email) fails with `TaxIdInUse`: the uniqueness checks do not exclude the
record being updated. -/
theorem c3_update_self_conflict (users : List User) (u : User) (hu : u ∈ users) :
    (∀ (name password cpf : String) (t : UserType) (sp : Option String),
      isValidEmail u.email = true → isValidPassword password = true →
      superPasswordOk sp →
      (updateUser users u.id name u.email password cpf t sp).1 =
        Except.error UserError.emailInUse) ∧
    (∀ (name email password : String) (t : UserType) (sp : Option String),
      isValidEmail email = true → isValidPassword password = true →
      superPasswordOk sp → isEmailInUse users email = false →
      (updateUser users u.id name email password u.cpf t sp).1 =
        Except.error UserError.cpfInUse) := by
  constructor
  · intro name password cpf t sp he hp hsp
    have hmail := email_inUse_of_mem hu
    have hspb : (truthy sp && !isValidPassword (sp.getD "")) = false := by
      cases htr : truthy sp with
      | false => simp
      | true => simp [hsp htr]
    simp [updateUser, validateUserData, he, hp, hspb, hmail]
  · intro name email password t sp he hp hsp hmail
    have hcpf := cpf_inUse_of_mem hu
    have hspb : (truthy sp && !isValidPassword (sp.getD "")) = false := by
      cases htr : truthy sp with
      | false => simp
      | true => simp [hsp htr]
    simp [updateUser, validateUserData, he, hp, hspb, hmail, hcpf]

/-- C3 witness. -/
theorem c3_update_self_conflict_witness :
    (updateUser [sampleUser] sampleUser.id "Zoe" sampleUser.email "bB2$bB2$"
      "000.000.000-00" UserType.admin none).1 = Except.error UserError.emailInUse ∧
    (updateUser [sampleUser] sampleUser.id "Zoe" "z@z.z" "bB2$bB2$"
      sampleUser.cpf UserType.admin none).1 = Except.error UserError.cpfInUse :=
  ⟨(c3_update_self_conflict [sampleUser] sampleUser (by simp)).1 "Zoe" "bB2$bB2$"
      "000.000.000-00" UserType.admin none (by decide) (by decide) superPasswordOk_none,
   (c3_update_self_conflict [sampleUser] sampleUser (by simp)).2 "Zoe" "z@z.z" "bB2$bB2$"
      UserType.admin none (by decide) (by decide) superPasswordOk_none (by decide)⟩

/-- C4: the gate's checks run in the fixed order email shape, password,
secondary password (when truthy), email-in-use, tax-id-in-use, tax-id
format+checksum; the first failing check alone determines the reported error.
In particular the fifth conjunct: when the tax-id is in use, the error is
`TaxIdInUse` whatever the tax-id's own validity. -/
theorem c4_gate_order (users : List User) (email password : String)
    (sp : Option String) (cpf : String) :
    (isValidEmail email = false →
      validateUserData users email password sp cpf = some UserError.invalidEmail) ∧
    (isValidEmail email = true → isValidPassword password = false →
      validateUserData users email password sp cpf = some UserError.invalidPassword) ∧
    (isValidEmail email = true → isValidPassword password = true →
      (truthy sp && !isValidPassword (sp.getD "")) = true →
      validateUserData users email password sp cpf =
        some UserError.invalidSuperPassword) ∧
    (isValidEmail email = true → isValidPassword password = true →
      (truthy sp && !isValidPassword (sp.getD "")) = false →
      isEmailInUse users email = true →
      validateUserData users email password sp cpf = some UserError.emailInUse) ∧
    (isValidEmail email = true → isValidPassword password = true →
      (truthy sp && !isValidPassword (sp.getD "")) = false →
      isEmailInUse users email = false → isCpfInUse users cpf = true →
      validateUserData users email password sp cpf = some UserError.cpfInUse) ∧
    (isValidEmail email = true → isValidPassword password = true →
      (truthy sp && !isValidPassword (sp.getD "")) = false →
      isEmailInUse users email = false → isCpfInUse users cpf = false →
      (!isValidCpfFormat cpf || !isValidCpfDigits cpf) = true →
      validateUserData users email password sp cpf = some UserError.invalidCpf) := by
  refine ⟨?_, ?_, ?_, ?_, ?_, ?_⟩
  · intro h1
    simp [validateUserData, h1]
  · intro h1 h2
    simp [validateUserData, h1, h2]
  · intro h1 h2 h3
    simp [validateUserData, h1, h2, h3]
  · intro h1 h2 h3 h4
    simp [validateUserData, h1, h2, h3, h4]
  · intro h1 h2 h3 h4 h5
    simp [validateUserData, h1, h2, h3, h4, h5]
  · intro h1 h2 h3 h4 h5 h6
    simp [validateUserData, h1, h2, h3, h4, h5, h6]

/-- C4 witness: in a state holding a record with the malformed tax-id
`"badcpf"`, submitting that same tax-id (with valid fresh email and password)
reports `TaxIdInUse`, not `InvalidTaxId`. -/
theorem c4_gate_order_witness :
    validateUserData [badCpfUser] "z@z.z" "aA1@aA1@" none "badcpf" =
      some UserError.cpfInUse :=
  (c4_gate_order [badCpfUser] "z@z.z" "aA1@aA1@" none "badcpf").2.2.2.2.1
    (by decide) (by decide) (by decide) (by decide) (by decide)

/-- C5: whenever `createUser` or `updateUser` reports any error, the record
set after the call equals the record set before the call. -/
theorem c5_no_partial_mutation (users : List User) (now : Nat)
    (id name email password cpf : String) (t : UserType) (sp : Option String) :
    (∀ e : UserError,
      (createUser users now id name email password cpf t sp).1 = Except.error e →
      (createUser users now id name email password cpf t sp).2 = users) ∧
    (∀ e : UserError,
      (updateUser users id name email password cpf t sp).1 = Except.error e →
      (updateUser users id name email password cpf t sp).2 = users) := by
  constructor
  · intro e h
    unfold createUser at h ⊢
    cases hv : validateUserData users email password sp cpf with
    | some e' => rfl
    | none => rw [hv] at h; exact absurd h (by simp)
  · intro e h
    unfold updateUser at h ⊢
    cases hv : validateUserData users email password sp cpf with
    | some e' => rfl
    | none =>
      rw [hv] at h
      cases hu : updateFirst users id
          (fun u => applyUpdate u name email password cpf t sp) with
      | none => rfl
      | some p => rw [hu] at h; exact absurd h (by simp)

/-- C5 witness. -/
theorem c5_no_partial_mutation_witness :
    (createUser [] 0 "A" "Ana" "bad" "aA1@aA1@" "111.444.777-35"
      UserType.customer none).2 = [] ∧
    (updateUser [] "A" "Ana" "bad" "aA1@aA1@" "111.444.777-35"
      UserType.customer none).2 = [] :=
  ⟨(c5_no_partial_mutation [] 0 "A" "Ana" "bad" "aA1@aA1@" "111.444.777-35"
      UserType.customer none).1 UserError.invalidEmail (by decide),
   (c5_no_partial_mutation [] 0 "A" "Ana" "bad" "aA1@aA1@" "111.444.777-35"
      UserType.customer none).2 UserError.invalidEmail (by decide)⟩

/-- C6: in every state reachable from the empty registry by createUser,
updateUser and deleteUser calls, no two distinct live records share an email
and no two share a tax-id. -/
theorem c6_uniqueness_invariant (ops : List Op) :
    emailsDistinct (runOps ops) ∧ cpfsDistinct (runOps ops) :=
  registryInv_foldl ops [] ⟨List.Pairwise.nil, List.Pairwise.nil⟩

/-- C7: on a valid input, `createUser` succeeds, appends exactly one record at
the end, returns it, and the returned record's sequence number is the
stringified prior count plus one while its code is the concatenation of the
timestamp and the prior count, both non-empty. -/
theorem c7_create_success (users : List User) (now : Nat)
    (id name email password cpf : String) (t : UserType) (sp : Option String)
    (h1 : isValidEmail email = true) (h2 : isValidPassword password = true)
    (h3 : superPasswordOk sp)
    (h4 : isEmailInUse users email = false) (h5 : isCpfInUse users cpf = false)
    (h6 : isValidCpfFormat cpf = true) (h7 : isValidCpfDigits cpf = true) :
    ∃ u : User,
      createUser users now id name email password cpf t sp =
        (Except.ok u, users ++ [u]) ∧
      u.number = toString (users.length + 1) ∧
      u.code = toString now ++ toString users.length ∧
      u.code ≠ "" ∧ u.number ≠ "" := by
  have hv := validateUserData_none_intro h1 h2 h3 h4 h5 h6 h7
  unfold createUser
  rw [hv]
  exact ⟨_, rfl, rfl, rfl,
    string_append_ne_empty_left (nat_toString_ne_empty now),
    nat_toString_ne_empty _⟩

/-- C7 witness. -/
theorem c7_create_success_witness :
    ∃ u : User,
      createUser [] 7 "A" "Ana" "a@a.a" "aA1@aA1@" "111.444.777-35"
        UserType.customer none = (Except.ok u, [] ++ [u]) ∧
      u.number = toString (List.length ([] : List User) + 1) ∧
      u.code = toString 7 ++ toString (List.length ([] : List User)) ∧
      u.code ≠ "" ∧ u.number ≠ "" :=
  c7_create_success [] 7 "A" "Ana" "a@a.a" "aA1@aA1@" "111.444.777-35"
    UserType.customer none (by decide) (by decide) superPasswordOk_none
    (by decide) (by decide) (by decide) (by decide)

/-- C8: the password complexity check accepts a string iff it has length at
least 8, contains a lowercase letter, an uppercase letter, a digit and a
symbol from `@$!%*?&`, and contains no character outside
`[A-Za-z0-9@$!%*?&]`. -/
theorem c8_password_policy (p : String) :
    isValidPassword p = true ↔ PasswordPolicy p := by
  unfold isValidPassword PasswordPolicy
  simp only [Bool.and_eq_true, List.any_eq_true, List.all_eq_true, decide_eq_true_eq,
    String.length, passwordSymbol_cases, passwordChar_cases]
  constructor
  · rintro ⟨⟨⟨⟨⟨hlo, hup⟩, hdig⟩, hsym⟩, hall⟩, hlen⟩
    exact ⟨hlen, hlo, hup, hdig, hsym, hall⟩
  · rintro ⟨hlen, hlo, hup, hdig, hsym, hall⟩
    exact ⟨⟨⟨⟨⟨hlo, hup⟩, hdig⟩, hsym⟩, hall⟩, hlen⟩

/-- C9: on every successful `updateUser` call, the updated record keeps the
code and sequence number of the pre-state record it was looked up as, and its
secondary password is overwritten exactly when a truthy (non-empty) secondary
password was supplied, otherwise preserved. -/
theorem c9_update_frame (users : List User) (id name email password cpf : String)
    (t : UserType) (sp : Option String) (u' : User) (users' : List User)
    (h : updateUser users id name email password cpf t sp = (Except.ok u', users')) :
    ∃ u : User, users.find? (fun w => w.id == id) = some u ∧ u ∈ users ∧
      u'.code = u.code ∧ u'.number = u.number ∧
      u'.superPassword = (if truthy sp then sp else u.superPassword) := by
  unfold updateUser at h
  cases hv : validateUserData users email password sp cpf with
  | some e => rw [hv] at h; exact absurd (congrArg Prod.fst h) (by simp)
  | none =>
    rw [hv] at h
    cases hu : updateFirst users id
        (fun u => applyUpdate u name email password cpf t sp) with
    | none => rw [hu] at h; exact absurd (congrArg Prod.fst h) (by simp)
    | some p =>
      obtain ⟨v, l'⟩ := p
      rw [hu] at h
      have hu'v : u' = v := by
        have := congrArg Prod.fst h
        simpa using this.symm
      obtain ⟨l₁, u, l₂, hsplit, hpre, hid, hvfu, -⟩ := updateFirst_spec hu
      subst hsplit
      refine ⟨u, find?_eq_of_split hpre hid,
        List.mem_append.mpr (Or.inr (List.mem_cons_self _ _)), ?_, ?_, ?_⟩ <;>
        rw [hu'v, hvfu] <;> rfl

/-- C9 witness. -/
theorem c9_update_frame_witness :
    ∃ u : User, List.find? (fun w => w.id == "A") [sampleUser] = some u ∧
      u ∈ [sampleUser] ∧
      updatedSample.code = u.code ∧ updatedSample.number = u.number ∧
      updatedSample.superPassword = (if truthy none then none else u.superPassword) :=
  c9_update_frame [sampleUser] "A" "Zoe" "z@z.z" "bB2$bB2$" "123.456.789-09"
    UserType.admin none updatedSample [updatedSample] (by decide)

/-- C10: sequence numbers are not unique among live records: after create A,
create B, delete A, create C (valid distinct inputs), the two distinct live
records B and C both carry the sequence number string `"2"`. -/
theorem c10_duplicate_sequence_numbers :
    (runOps dupNumberOps).map (fun u => (u.id, u.number)) =
      [("B", "2"), ("C", "2")] := by
  decide

end UsersApi
